import Mathlib

/-!
# SimpleSpark — verification of the provisioning orchestrator

A shallow embedding of `simplespark/app.py`. External actions (subprocess
calls to `docker-machine`, `docker-compose`, `docker`, `aws`) are recorded as
an explicit trace of `Call` values; the outside world's responses (process
exit codes, the EC2 inventory, the parsed machine environment) are inputs
bundled in a `Backend` value, so every function here is a pure, executable
translation of the corresponding Python function.

Where the source contains an evident typo that would crash before the logic
under study runs (a missing comma between list elements at app.py line 125,
`re.finall` for `re.findall` at line 139, `master_instance_type` missing from
`create_cluster`'s parameter list while line 102 uses it), the embedding reads
the evident repaired statement and says so in the doc comment of the
definition concerned.  Slips that change what the program means — the
hardcoded `scale master=1 worker=10`, the absence of any retry loop in
`get_ip_from_name`, `swarm_env` computed but never passed in
`test_spark_cluster`, `env_vars` never initialised and never returned in
`get_swarm_env` — are kept exactly as the source has them.
-/

namespace SimpleSpark

/-- One external action issued by the orchestrator, in issue order.
`createMachine` is a `docker-machine create`; `machineEnvQuery` is
`docker-machine env --shell sh --swarm <name>`; `composeUp`/`composeScale`
are `docker-compose -f <file> up -d <service>` / `... scale <args>` with the
environment mapping the subprocess is given; `describeInstances` is
`aws ec2 describe-instances`; `resolveName` is the discovery-reference
name-resolution call; `machineRm` is `docker-machine rm -y <name>`;
`dockerRun` is a `docker run` whose `env` is `some m` when an explicit
environment mapping is passed and `none` when the subprocess merely inherits
the orchestrator's ambient environment. -/
inductive Call where
  | createMachine (name : String) (args : List String)
  | machineEnvQuery (name : String)
  | composeUp (file : String) (service : String) (env : List (String × String))
  | composeScale (file : String) (args : List String) (env : List (String × String))
  | describeInstances
  | resolveName (name : String)
  | machineRm (name : String)
  | dockerRun (args : List String) (env : Option (List (String × String)))
deriving DecidableEq

/-! ## The IPv4-literal check (app.py lines 10-12)

`looks_like_ip` is `re.match(r'^\d{1,3}\.\d{1,3}\.\d{1,3}\.\d{1,3}(:\d{1,5})?$', s)`
used as a boolean.  Because every quantified sub-pattern is a run of digits
and each delimiter (`.`, `:`, end) is a non-digit, the regex engine's greedy
matching with backtracking accepts exactly when each maximal digit run has
the stated length and is followed by the stated delimiter, which is what the
`spanDigits` chain below computes.  One quirk of Python's `$` is kept: `$`
also matches just before one final newline, so a candidate ending in a single
`'\n'` is accepted iff the candidate without it is (`stripDollarNewline`). -/

/-- Longest digit run at the head of the list, and the rest. -/
def spanDigits : List Char → List Char × List Char
  | [] => ([], [])
  | c :: cs =>
    if c.isDigit then
      let p := spanDigits cs
      (c :: p.1, p.2)
    else ([], c :: cs)

/-- `\d{1,3}`: a group of one to three digits. -/
def grpOk (g : List Char) : Bool := decide (1 ≤ g.length) && decide (g.length ≤ 3)

/-- `\d{1,5}`: a port group of one to five digits. -/
def portGrpOk (g : List Char) : Bool := decide (1 ≤ g.length) && decide (g.length ≤ 5)

/-- The anchored pattern `\d{1,3}\.\d{1,3}\.\d{1,3}\.\d{1,3}(:\d{1,5})?` on a
list of characters. -/
def ipCore (l : List Char) : Bool :=
  let q1 := spanDigits l
  match q1.2 with
  | '.' :: r1 =>
    let q2 := spanDigits r1
    match q2.2 with
    | '.' :: r2 =>
      let q3 := spanDigits r2
      match q3.2 with
      | '.' :: r3 =>
        let q4 := spanDigits r3
        grpOk q1.1 && grpOk q2.1 && grpOk q3.1 && grpOk q4.1 &&
        (match q4.2 with
         | [] => true
         | ':' :: r4 =>
           let q5 := spanDigits r4
           portGrpOk q5.1 && decide (q5.2 = [])
         | _ => false)
      | _ => false
    | _ => false
  | _ => false

/-- Python's `$` also matches immediately before a newline that ends the
string, so one final `'\n'` is dropped before matching. -/
def stripDollarNewline (l : List Char) : List Char :=
  match l.reverse with
  | '\n' :: r => r.reverse
  | _ => l

/-- app.py lines 10-12: `looks_like_ip`. -/
def looks_like_ip (s : String) : Bool := ipCore (stripDollarNewline s.toList)

/-- Decimal value of a digit run. -/
def digitsVal (l : List Char) : Nat := l.foldl (fun a c => 10 * a + (c.toNat - 48)) 0

/-- Modelled from the claim's words, for comparison only: a range-validated
IPv4 literal with optional port — four dot-separated groups of one to three
digits each of value at most 255, optionally followed by a colon and one to
five digits of value at most 65535.  `looks_like_ip` performs no such range
validation. -/
def validIPv4 (s : String) : Bool :=
  let q1 := spanDigits s.toList
  match q1.2 with
  | '.' :: r1 =>
    let q2 := spanDigits r1
    match q2.2 with
    | '.' :: r2 =>
      let q3 := spanDigits r2
      match q3.2 with
      | '.' :: r3 =>
        let q4 := spanDigits r3
        grpOk q1.1 && grpOk q2.1 && grpOk q3.1 && grpOk q4.1 &&
        decide (digitsVal q1.1 ≤ 255) && decide (digitsVal q2.1 ≤ 255) &&
        decide (digitsVal q3.1 ≤ 255) && decide (digitsVal q4.1 ≤ 255) &&
        (match q4.2 with
         | [] => true
         | ':' :: r4 =>
           let q5 := spanDigits r4
           portGrpOk q5.1 && decide (digitsVal q5.1 ≤ 65535) && decide (q5.2 = [])
         | _ => false)
      | _ => false
    | _ => false
  | _ => false

/-! ## Address resolution (app.py lines 142-158) -/

/-- The fields of one EC2 inventory record that `get_ip_from_name` reads:
`State.Name`, `PrivateIpAddress`, `PublicDnsName`. -/
structure Ec2Instance where
  stateName : String
  privateIpAddress : String
  publicDnsName : String
deriving DecidableEq

/-- The ways `get_ip_from_name` can raise: a lookup of an absent name raises
a key-lookup error (the subscript `j['Reservations']['Instances'][name]` on a
missing key), and a non-running instance raises the generic
`EnvironmentError` of line 155.  There is no `NotFound`/`NotRunning` error
taxonomy in the source. -/
inductive ResolveErr where
  | keyLookupFailed (name : String)
  | notRunningEnvironmentErr (name : String)
deriving DecidableEq

/-- app.py lines 142-158: `get_ip_from_name(instance_name, private=True)`.
The body issues exactly one `aws ec2 describe-instances` query (line 151) and
then branches: an absent name fails on the subscript (line 153); a record
whose `State.Name` is not `"running"` raises `EnvironmentError` (lines
154-155); otherwise the private IP or the public DNS is returned per the
`private` flag (lines 156-158).  There is no loop, no sleep, no attempt
counter of any kind in the source.  The inventory is the association of
instance names to records that the parsed `describe-instances` JSON yields. -/
def get_ip_from_name_run (inv : List (String × Ec2Instance)) (instance_name : String)
    (priv : Bool) : List Call × Except ResolveErr String :=
  ([Call.describeInstances],
   match inv.lookup instance_name with
   | none => Except.error (ResolveErr.keyLookupFailed instance_name)
   | some inst =>
     if inst.stateName ≠ "running" then
       Except.error (ResolveErr.notRunningEnvironmentErr instance_name)
     else if priv then Except.ok inst.privateIpAddress
     else Except.ok inst.publicDnsName)

/-- The spec's error taxonomy for the Address Resolver (§4.2, §7). -/
inductive SpecResolutionError where
  | notFound
  | notRunning
deriving DecidableEq

/-- Modelled from the spec, for comparison only (spec §4.2): the Address
Resolver algorithm the claim describes — query the inventory; an absent name
fails immediately with `NotFound` (not retried); a non-running record is
retried up to `maxAttempts` times (the final `Nat` argument), failing with
`NotRunning` once attempts are exhausted; a running record yields the private
or public field per the address kind.  The trace records one inventory query
per attempt.  The source's `get_ip_from_name` has no such loop. -/
def resolveAddress (inv : List (String × Ec2Instance)) (name : String) (priv : Bool) :
    Nat → List Call × Except SpecResolutionError String
  | 0 => ([], Except.error SpecResolutionError.notRunning)
  | Nat.succ n =>
    match inv.lookup name with
    | none => ([Call.describeInstances], Except.error SpecResolutionError.notFound)
    | some inst =>
      if inst.stateName = "running" then
        ([Call.describeInstances],
         Except.ok (if priv then inst.privateIpAddress else inst.publicDnsName))
      else
        let r := resolveAddress inv name priv n
        (Call.describeInstances :: r.1, r.2)

/-- Modelled from the spec: `get_consul_ip` is called at app.py line 87 but is
defined nowhere in the repository's sources.  Per spec §4.4 step 1 the
discovery reference "is resolved by name via the Address Resolver to obtain a
usable discovery endpoint", so it is modelled as the repository's own resolver
`get_ip_from_name` queried with its default `private=True`, with the query
labelled as the discovery name-resolution call. -/
def get_consul_ip (inv : List (String × Ec2Instance)) (name : String) :
    List Call × Except ResolveErr String :=
  ([Call.resolveName name], (get_ip_from_name_run inv name true).2)

/-! ## The swarm environment builder (app.py lines 129-139) -/

/-- A Python exception the embedding must speak about. -/
inductive PyErr where
  | nameErrorRaised (ident : String)
deriving DecidableEq

/-- app.py lines 129-139, `get_swarm_env` exactly as written: after the
`docker-machine env --shell sh --swarm <master_name>` query of lines 135-137,
line 138 executes `env_vars.update(os.environ.copy())` — but `env_vars` was
never bound, so the call raises `NameError: env_vars`; and the function has
no `return` statement, so even with `env_vars` bound it would return `None`,
not the mapping its docstring (`:rtype: dict[str, str]`) declares. -/
def get_swarm_env_literal (name : String) : List Call × Except PyErr (List (String × String)) :=
  ([Call.machineEnvQuery name], Except.error (PyErr.nameErrorRaised "env_vars"))

/-- Python `dict.update` with one entry: replace the value in place when the
key is present, append the entry otherwise. -/
def updEntry (base : List (String × String)) (kv : String × String) : List (String × String) :=
  if base.any (fun p => p.1 == kv.1) then
    base.map (fun p => cond (p.1 == kv.1) (p.1, kv.2) p)
  else base ++ [kv]

/-- Python `dict.update` with a list of entries, in order. -/
def dictUpdate (base upd : List (String × String)) : List (String × String) :=
  upd.foldl updEntry base

/-- The mapping `get_swarm_env`'s body prescribes once its two evident typos
are repaired (`env_vars` initialised to an empty dict, the result returned —
its docstring declares `:rtype: dict[str, str]`): start empty, `dict.update`
with a copy of the ambient `os.environ` (line 138), then `dict.update` with
the machine-specific `export VAR=value` entries parsed from the
`docker-machine env` output (line 139, reading `re.finall` as `re.findall`),
each split on the first `=`.  Ambient entries are defaults; machine entries
override.  The orchestration model below uses this value wherever the source
passes `swarm_env`, so the phases after line 105 stay analyzable; the literal
body's `NameError` is recorded by `get_swarm_env_literal`. -/
def get_swarm_env_merge (ambient machineVars : List (String × String)) :
    List (String × String) :=
  dictUpdate (dictUpdate [] ambient) machineVars

/-! ## The cluster orchestrator (app.py lines 63-126) -/

/-- The explicit inputs of one `create` run (spec §3 `ClusterSpec`): the
requested worker count and the naming/sizing options of the `create` command.
The source reads `num_workers` from an untyped CLI argument; it is the
requested worker count, a natural number. -/
structure ClusterSpec where
  num_workers : Nat
  pfx : String
  security_group : String
  consul : String
  network_interface : String
  master_instance_type : String
  worker_spot_price : String
  worker_instance_type : String
  docker_compose_file : String

/-- The outside world's responses, fixed before a run is replayed: the EC2
inventory the `describe-instances` query returns, the exit codes of the
provisioning and compose subprocesses (one per worker index for the
fan-out), and the parsed `docker-machine env` entries together with the
ambient `os.environ` snapshot. -/
structure Backend where
  inv : List (String × Ec2Instance)
  masterExit : Nat
  composeUpExit : Nat
  workerExit : Nat → Nat
  scaleExit : Nat
  ambient : List (String × String)
  machineVars : List (String × String)

/-- An abort of a run: `subprocess.check_call`/`check_output` raising
`CalledProcessError` on a non-zero exit, or an exception propagating out of
`get_ip_from_name`. -/
inductive RunErr where
  | calledProcessErr (cmd : String)
  | resolveFailed (e : ResolveErr)
deriving DecidableEq

/-- What a completed `create` run reports (spec §3 `ClusterResult`): the
master's public address (line 108) and, per worker index in request order,
the worker's name and the exit code its `docker-machine create` process was
waited on with (lines 113-122). -/
structure ClusterRunResult where
  masterDns : String
  workerResults : List (String × Nat)
deriving DecidableEq

/-- app.py line 94: `driver_options`. -/
def driver_options (security_group : String) : List String :=
  ["--driver", "amazonec2", "--amazonec2-security-group=" ++ security_group]

/-- app.py lines 95-97: `swarm_options`, with the discovery endpoint spliced
into the consul URLs. -/
def swarm_options (consulAddr network_interface : String) : List String :=
  ["--swarm", "--swarm-discovery=consul://" ++ consulAddr ++ ":8500",
   "--engine-opt=cluster-store=consul://" ++ consulAddr ++ ":8500",
   "--engine-opt=cluster-advertise=" ++ network_interface ++ ":2376"]

/-- app.py line 99: the master's name. -/
def master_name (s : ClusterSpec) : String := s.pfx ++ "-master"

/-- app.py lines 112 and 118: the name of worker `i`. -/
def worker_name (s : ClusterSpec) (i : Nat) : String :=
  s.pfx ++ "-worker-" ++ toString i

/-- app.py lines 100-103: the master's `docker-machine create` arguments
(`'-engine-label'` with its single dash as in the source; the source's
parameter list omits `master_instance_type`, an evident slip since line 102
uses it). -/
def masterArgs (s : ClusterSpec) (consulAddr : String) : List String :=
  driver_options s.security_group ++ swarm_options consulAddr s.network_interface ++
    ["--swarm-master", "-engine-label", "role=master",
     "--amazonec2-instance-type=" ++ s.master_instance_type, master_name s]

/-- app.py lines 114-118: the `docker-machine create` arguments of worker `i`
(`'--amazonec2-spot=price='` as in the source). -/
def workerArgs (s : ClusterSpec) (consulAddr : String) (i : Nat) : List String :=
  driver_options s.security_group ++ swarm_options consulAddr s.network_interface ++
    ["--amazonec2-request-spot-instance",
     "--amazonec2-spot=price=" ++ s.worker_spot_price,
     "--amazonec2-instance-type=" ++ s.worker_instance_type, worker_name s i]

/-- app.py lines 99-126: the phases of `create_cluster` after the discovery
endpoint `consulAddr` is settled.

* lines 100-103: issue the master's `docker-machine create`; `check_call`
  raises on a non-zero exit and the run aborts with nothing further issued;
* lines 105-107: build the swarm environment (see `get_swarm_env_merge`) and
  issue `docker-compose -f <file> up -d master` with it (the source's line
  125 writes `'-f' docker_compose_file` with a missing comma — an evident
  typo for the two arguments the line 106 call spells out);
* line 108: resolve the master's public DNS via `get_ip_from_name`; an
  exception propagates and aborts the run;
* lines 111-122: fan out one `docker-machine create` per worker index
  `0..num_workers-1` via `subprocess.Popen` — every request is issued, none
  is cancelled — then wait on every process in index order; the waited exit
  codes are the per-worker outcomes and are checked by nobody, so worker
  failures abort nothing;
* lines 124-126: issue `docker-compose -f <file> scale master=1 worker=10`
  with the swarm environment — the counts are the hardcoded literals of line
  126, whatever was requested or observed. -/
def create_cluster_after_discovery (b : Backend) (s : ClusterSpec) (consulAddr : String) :
    List Call × Except RunErr ClusterRunResult :=
  let t1 : List Call := [Call.createMachine (master_name s) (masterArgs s consulAddr)]
  if b.masterExit ≠ 0 then
    (t1, Except.error (RunErr.calledProcessErr "docker-machine create")) else
  let env := get_swarm_env_merge b.ambient b.machineVars
  let t2 := t1 ++ [Call.machineEnvQuery (master_name s),
                   Call.composeUp s.docker_compose_file "master" env]
  if b.composeUpExit ≠ 0 then
    (t2, Except.error (RunErr.calledProcessErr "docker-compose up -d master")) else
  let mres := get_ip_from_name_run b.inv (master_name s) false
  let t3 := t2 ++ mres.1
  match mres.2 with
  | Except.error e => (t3, Except.error (RunErr.resolveFailed e))
  | Except.ok masterDns =>
    let t4 := t3 ++ (List.range s.num_workers).map
        (fun i => Call.createMachine (worker_name s i) (workerArgs s consulAddr i))
    let outcomes := (List.range s.num_workers).map (fun i => (worker_name s i, b.workerExit i))
    let t5 := t4 ++ [Call.composeScale s.docker_compose_file ["master=1", "worker=10"] env]
    if b.scaleExit ≠ 0 then
      (t5, Except.error (RunErr.calledProcessErr "docker-compose scale")) else
    (t5, Except.ok { masterDns := masterDns, workerResults := outcomes })

/-- app.py lines 81-126: `create_cluster`.  Lines 86-88 settle the discovery
endpoint first: a reference that `looks_like_ip` accepts is used verbatim with
no resolution call; otherwise it is resolved by name (`get_consul_ip`), a
failure there aborting the run before anything is created. -/
def create_cluster (b : Backend) (s : ClusterSpec) :
    List Call × Except RunErr ClusterRunResult :=
  let disc : List Call × Except ResolveErr String :=
    if looks_like_ip s.consul then ([], Except.ok s.consul)
    else get_consul_ip b.inv s.consul
  match disc with
  | (t0, Except.error e) => (t0, Except.error (RunErr.resolveFailed e))
  | (t0, Except.ok a) =>
    let r := create_cluster_after_discovery b s a
    (t0 ++ r.1, r.2)

/-! ## destroy and test (app.py lines 55-60 and 161-176) -/

/-- app.py lines 55-60: `destroy_consul_box` issues exactly one
`docker-machine rm -y <name>` through `subprocess.check_call` and contains no
error handling of its own: the run completes without error exactly when the
external command exits zero (`rmExit` is the backend's exit code for the
name), and any non-zero exit — a "no such machine" report included —
propagates as `CalledProcessError`. -/
def destroy_consul_box (rmExit : String → Nat) (instance_name : String) :
    List Call × Except RunErr Unit :=
  ([Call.machineRm instance_name],
   if rmExit instance_name = 0 then Except.ok ()
   else Except.error (RunErr.calledProcessErr "docker-machine rm"))

/-- app.py lines 170-175: the `docker run` arguments of the smoke test.  The
source's line 171 writes `'--entrypoint' 'spark-submit'` with a missing
comma, which Python concatenates into the single argument
`'--entrypointspark-submit'`; that is what the subprocess is given. -/
def spark_submit_args : List String :=
  ["--net=container:master", "--entrypointspark-submit",
   "gettyimages/spark:2.0.2-hadoop-2.7",
   "--master", "spark://master:7077",
   "--class", "org.apache.spark.examples.SparkPi",
   "/usr/spark/lib/spark-examples-2.0.2-hadoop2.7.0.jar"]

/-- app.py lines 161-176: `test_spark_cluster`.  Line 166 derives the master
name from the cluster name option; line 167 computes `swarm_env` — and never
uses it: the `subprocess.check_output(['docker', 'run', ...])` call of lines
170-175 passes no `env=` keyword, so the submit subprocess merely inherits
the orchestrator's ambient environment (recorded as `none`).  The captured
output is echoed verbatim (line 176).  `submitOutput` is the backend's output
for the submission. -/
def test_spark_cluster (b : Backend) (submitOutput : String) (clusterPfx : String) :
    List Call × String :=
  let m := clusterPfx ++ "-master"
  let _swarm_env := get_swarm_env_merge b.ambient b.machineVars
  ([Call.machineEnvQuery m, Call.dockerRun spark_submit_args none], submitOutput)

/-! ## Trace observations -/

/-- The names of the `docker-machine create` requests in a trace, in issue
order. -/
def createRequests (t : List Call) : List String :=
  t.filterMap fun c => match c with
    | Call.createMachine n _ => some n
    | _ => none

/-- How many discovery name-resolution calls a trace holds. -/
def resolveCallsIn (t : List Call) : Nat :=
  (t.filter fun c => match c with | Call.resolveName _ => true | _ => false).length

/-- The argument lists of the `docker-compose scale` requests in a trace. -/
def scaleArgsIn (t : List Call) : List (List String) :=
  t.filterMap fun c => match c with
    | Call.composeScale _ a _ => some a
    | _ => none

/-- Whether a run aborted (an uncaught exception ended it). -/
def runAborted : Except RunErr ClusterRunResult → Bool
  | Except.error _ => true
  | Except.ok _ => false

instance {ε α : Type} [DecidableEq ε] [DecidableEq α] : DecidableEq (Except ε α) :=
  fun x y =>
    match x, y with
    | Except.error a, Except.error b =>
      if h : a = b then Decidable.isTrue (by rw [h])
      else Decidable.isFalse (fun he => h (Except.error.inj he))
    | Except.ok a, Except.ok b =>
      if h : a = b then Decidable.isTrue (by rw [h])
      else Decidable.isFalse (fun he => h (Except.ok.inj he))
    | Except.error _, Except.ok _ => Decidable.isFalse (fun he => Except.noConfusion he)
    | Except.ok _, Except.error _ => Decidable.isFalse (fun he => Except.noConfusion he)

/-! ## Concrete fixtures used by witnesses and counterexamples -/

/-- A running master record. -/
def miRunning : Ec2Instance :=
  { stateName := "running", privateIpAddress := "10.0.0.17",
    publicDnsName := "ec2-54-0-0-1.compute.amazonaws.com" }

/-- A pending (not yet running) worker record. -/
def miPending : Ec2Instance :=
  { stateName := "pending", privateIpAddress := "10.0.0.23",
    publicDnsName := "ec2-54-0-0-2.compute.amazonaws.com" }

/-- An inventory holding one running master and one pending worker. -/
def invMixed : List (String × Ec2Instance) :=
  [("spark-master", miRunning), ("spark-worker-0", miPending)]

/-- A fully cooperative backend: every subprocess exits zero, the master is
running in the inventory. -/
def bOk : Backend :=
  { inv := invMixed, masterExit := 0, composeUpExit := 0, workerExit := fun _ => 0,
    scaleExit := 0, ambient := [("PATH", "/usr/bin"), ("HOME", "/root")],
    machineVars := [("DOCKER_HOST", "tcp://10.0.0.17:3376"), ("DOCKER_TLS_VERIFY", "1")] }

/-- A `create` invocation asking for three workers with a literal discovery
address. -/
def sThree : ClusterSpec :=
  { num_workers := 3, pfx := "spark", security_group := "sparky",
    consul := "10.0.0.5:8500", network_interface := "eth0",
    master_instance_type := "m4.large", worker_spot_price := "0.074",
    worker_instance_type := "m4.2xlarge", docker_compose_file := "dc.yml" }

/-- How many of a run's reported workers were observed running: their
`docker-machine create` was waited on with exit code zero. -/
def observedRunning (r : ClusterRunResult) : Nat :=
  (r.workerResults.filter fun p => p.2 == 0).length

/-- `bOk` except that worker 1's create process exits non-zero: one of three
workers fails. -/
def bOneWorkerFails : Backend :=
  { bOk with workerExit := fun i => if i = 1 then 1 else 0 }

/-- `bOk` except that the master's create process exits non-zero. -/
def bMasterFails : Backend :=
  { bOk with masterExit := 1 }

/-- A provisioning backend whose only machine is `consul-disco` and which, as
`docker-machine rm` does, exits non-zero for a name it does not know. -/
def rmOnlyConsulDisco : String → Nat :=
  fun n => if n = "consul-disco" then 0 else 1

/-- A `create` invocation whose discovery reference is a well-shaped but
range-invalid IPv4 literal (every octet 999, port 99999). -/
def sBogusIp : ClusterSpec :=
  { sThree with consul := "999.999.999.999:99999", num_workers := 0 }

/-! ## Lemmas about the IPv4-literal matcher -/

/-- A group the pattern `\d{1,3}` accepts: one to three digits. -/
def IsDigitGrp (g : List Char) : Prop :=
  (∀ c ∈ g, c.isDigit = true) ∧ 1 ≤ g.length ∧ g.length ≤ 3

/-- A port suffix `(:\d{1,5})?` accepts: absent, or one to five digits. -/
def IsPortGrp : Option (List Char) → Prop
  | none => True
  | some q => (∀ c ∈ q, c.isDigit = true) ∧ 1 ≤ q.length ∧ q.length ≤ 5

instance (g : List Char) : Decidable (IsDigitGrp g) := by
  unfold IsDigitGrp
  infer_instance

instance (p : Option (List Char)) : Decidable (IsPortGrp p) := by
  cases p with
  | none => exact Decidable.isTrue trivial
  | some q =>
    unfold IsPortGrp
    infer_instance

/-- The characters of a candidate of the claimed shape: four dot-separated
groups and an optional colon-separated port. -/
def renderIp (g1 g2 g3 g4 : List Char) (p : Option (List Char)) : List Char :=
  g1 ++ ('.' :: (g2 ++ ('.' :: (g3 ++ ('.' :: (g4 ++
    (match p with | none => [] | some q => ':' :: q)))))))

theorem spanDigits_append (g r : List Char) (hg : ∀ c ∈ g, c.isDigit = true)
    (hr : ∀ c r2, r = c :: r2 → c.isDigit = false) :
    spanDigits (g ++ r) = (g, r) := by
  induction g with
  | nil =>
    cases r with
    | nil => rfl
    | cons c r2 => simp [spanDigits, hr c r2 rfl]
  | cons c cs ih =>
    have hc : c.isDigit = true := hg c (by simp)
    simp [spanDigits, hc, ih (fun x hx => hg x (by simp [hx]))]

theorem stripDollarNewline_of_no_newline (l : List Char)
    (h : ∀ c ∈ l, c.isDigit = true ∨ c = '.' ∨ c = ':') :
    stripDollarNewline l = l := by
  unfold stripDollarNewline
  split
  case _ r heq =>
    have hn : '\n' ∈ l := by
      have h2 : '\n' ∈ l.reverse := by rw [heq]; exact List.mem_cons_self _ _
      simpa using h2
    rcases h _ hn with h1 | h1 | h1
    · exact absurd h1 (by decide)
    · exact absurd h1 (by decide)
    · exact absurd h1 (by decide)
  case _ => rfl

theorem ipCore_render (g1 g2 g3 g4 : List Char) (p : Option (List Char))
    (h1 : IsDigitGrp g1) (h2 : IsDigitGrp g2) (h3 : IsDigitGrp g3) (h4 : IsDigitGrp g4)
    (hp : IsPortGrp p) :
    ipCore (renderIp g1 g2 g3 g4 p) = true := by
  obtain ⟨hd1, hlo1, hhi1⟩ := h1
  obtain ⟨hd2, hlo2, hhi2⟩ := h2
  obtain ⟨hd3, hlo3, hhi3⟩ := h3
  obtain ⟨hd4, hlo4, hhi4⟩ := h4
  have hdot : ∀ (r : List Char) c r2, ('.' :: r) = c :: r2 → c.isDigit = false := by
    intro r c r2 hh
    cases hh
    decide
  cases p with
  | none =>
    have e4 : spanDigits g4 = (g4, []) := by
      have h5 := spanDigits_append g4 [] hd4 (by intro c r2 hh; cases hh)
      simpa using h5
    have e3 : spanDigits (g3 ++ ('.' :: g4)) = (g3, '.' :: g4) :=
      spanDigits_append g3 _ hd3 (hdot _)
    have e2 : spanDigits (g2 ++ ('.' :: (g3 ++ ('.' :: g4)))) =
        (g2, '.' :: (g3 ++ ('.' :: g4))) :=
      spanDigits_append g2 _ hd2 (hdot _)
    have e1 : spanDigits (g1 ++ ('.' :: (g2 ++ ('.' :: (g3 ++ ('.' :: g4)))))) =
        (g1, '.' :: (g2 ++ ('.' :: (g3 ++ ('.' :: g4))))) :=
      spanDigits_append g1 _ hd1 (hdot _)
    have hren : renderIp g1 g2 g3 g4 none =
        g1 ++ ('.' :: (g2 ++ ('.' :: (g3 ++ ('.' :: g4))))) := by
      simp [renderIp]
    rw [hren]
    simp [ipCore, e1, e2, e3, e4, grpOk, hlo1, hhi1, hlo2, hhi2, hlo3, hhi3, hlo4, hhi4]
  | some q =>
    obtain ⟨hdq, hloq, hhiq⟩ := hp
    have e5 : spanDigits q = (q, []) := by
      have h5 := spanDigits_append q [] hdq (by intro c r2 hh; cases hh)
      simpa using h5
    have e4 : spanDigits (g4 ++ (':' :: q)) = (g4, ':' :: q) := by
      refine spanDigits_append g4 _ hd4 ?_
      intro c r2 hh
      cases hh
      decide
    have e3 : spanDigits (g3 ++ ('.' :: (g4 ++ (':' :: q)))) = (g3, '.' :: (g4 ++ (':' :: q))) :=
      spanDigits_append g3 _ hd3 (hdot _)
    have e2 : spanDigits (g2 ++ ('.' :: (g3 ++ ('.' :: (g4 ++ (':' :: q)))))) =
        (g2, '.' :: (g3 ++ ('.' :: (g4 ++ (':' :: q))))) :=
      spanDigits_append g2 _ hd2 (hdot _)
    have e1 : spanDigits (g1 ++ ('.' :: (g2 ++ ('.' :: (g3 ++ ('.' :: (g4 ++ (':' :: q)))))))) =
        (g1, '.' :: (g2 ++ ('.' :: (g3 ++ ('.' :: (g4 ++ (':' :: q))))))) :=
      spanDigits_append g1 _ hd1 (hdot _)
    have hren : renderIp g1 g2 g3 g4 (some q) =
        g1 ++ ('.' :: (g2 ++ ('.' :: (g3 ++ ('.' :: (g4 ++ (':' :: q))))))) := rfl
    rw [hren]
    simp [ipCore, e1, e2, e3, e4, e5, grpOk, portGrpOk, hlo1, hhi1, hlo2, hhi2,
      hlo3, hhi3, hlo4, hhi4, hloq, hhiq]

theorem renderIp_chars (g1 g2 g3 g4 : List Char) (p : Option (List Char))
    (h1 : IsDigitGrp g1) (h2 : IsDigitGrp g2) (h3 : IsDigitGrp g3) (h4 : IsDigitGrp g4)
    (hp : IsPortGrp p) :
    ∀ c ∈ renderIp g1 g2 g3 g4 p, c.isDigit = true ∨ c = '.' ∨ c = ':' := by
  intro c hc
  cases p with
  | none =>
    simp only [renderIp, List.mem_append, List.mem_cons, List.not_mem_nil, or_false] at hc
    rcases hc with hc | hc | hc | hc | hc | hc | hc
    · exact Or.inl (h1.1 c hc)
    · exact Or.inr (Or.inl hc)
    · exact Or.inl (h2.1 c hc)
    · exact Or.inr (Or.inl hc)
    · exact Or.inl (h3.1 c hc)
    · exact Or.inr (Or.inl hc)
    · exact Or.inl (h4.1 c hc)
  | some q =>
    simp only [renderIp, List.mem_append, List.mem_cons] at hc
    rcases hc with hc | hc | hc | hc | hc | hc | hc | hc | hc
    · exact Or.inl (h1.1 c hc)
    · exact Or.inr (Or.inl hc)
    · exact Or.inl (h2.1 c hc)
    · exact Or.inr (Or.inl hc)
    · exact Or.inl (h3.1 c hc)
    · exact Or.inr (Or.inl hc)
    · exact Or.inl (h4.1 c hc)
    · exact Or.inr (Or.inr hc)
    · exact Or.inl (hp.1 c hc)

/-- `looks_like_ip` on the string a shape yields. -/
theorem looks_like_ip_render (g1 g2 g3 g4 : List Char) (p : Option (List Char))
    (h1 : IsDigitGrp g1) (h2 : IsDigitGrp g2) (h3 : IsDigitGrp g3) (h4 : IsDigitGrp g4)
    (hp : IsPortGrp p) :
    looks_like_ip (String.mk (renderIp g1 g2 g3 g4 p)) = true := by
  have hchars := renderIp_chars g1 g2 g3 g4 p h1 h2 h3 h4 hp
  have hstrip : stripDollarNewline (renderIp g1 g2 g3 g4 p) = renderIp g1 g2 g3 g4 p :=
    stripDollarNewline_of_no_newline _ hchars
  have : looks_like_ip (String.mk (renderIp g1 g2 g3 g4 p)) =
      ipCore (stripDollarNewline (renderIp g1 g2 g3 g4 p)) := rfl
  rw [this, hstrip]
  exact ipCore_render g1 g2 g3 g4 p h1 h2 h3 h4 hp

/-! ## Lemmas about the dict-update merge -/

theorem lookup_map_updEntry_ne (kv : String × String) (k : String) (base : List (String × String))
    (hk : (k == kv.1) = false) :
    (base.map (fun p => cond (p.1 == kv.1) (p.1, kv.2) p)).lookup k = base.lookup k := by
  induction base with
  | nil => rfl
  | cons p bs ih =>
    obtain ⟨pk, pv⟩ := p
    by_cases hp : (pk == kv.1) = true
    · have hk2 : (k == pk) = false := by
        have he : pk = kv.1 := beq_iff_eq.mp hp
        rw [he]
        exact hk
      simp [List.lookup_cons, hp, hk2, ih]
    · simp only [Bool.not_eq_true] at hp
      simp [List.lookup_cons, hp, ih]

theorem lookup_map_updEntry_eq (kv : String × String) (base : List (String × String))
    (hmem : base.any (fun p => p.1 == kv.1) = true) :
    (base.map (fun p => cond (p.1 == kv.1) (p.1, kv.2) p)).lookup kv.1 = some kv.2 := by
  induction base with
  | nil => simp at hmem
  | cons p bs ih =>
    obtain ⟨pk, pv⟩ := p
    by_cases hp : (pk == kv.1) = true
    · have h1 : (kv.1 == pk) = true := beq_iff_eq.mpr (beq_iff_eq.mp hp).symm
      simp [List.lookup_cons, hp, h1]
    · have hp2 : (pk == kv.1) = false := by simpa using hp
      have hmem2 : bs.any (fun p => p.1 == kv.1) = true := by
        simp only [List.any_cons, hp2, Bool.false_or] at hmem
        exact hmem
      have h1 : (kv.1 == pk) = false := by
        refine beq_eq_false_iff_ne.mpr ?_
        intro he
        exact (beq_eq_false_iff_ne.mp hp2) he.symm
      simp [List.lookup_cons, hp2, h1, ih hmem2]

theorem lookup_none_of_not_any (kv : String × String) (base : List (String × String))
    (hmem : base.any (fun p => p.1 == kv.1) = false) :
    base.lookup kv.1 = none := by
  induction base with
  | nil => rfl
  | cons p bs ih =>
    obtain ⟨pk, pv⟩ := p
    simp only [List.any_cons, Bool.or_eq_false_iff] at hmem
    have h1 : (kv.1 == pk) = false := by
      refine beq_eq_false_iff_ne.mpr ?_
      intro he
      exact (beq_eq_false_iff_ne.mp hmem.1) he.symm
    simp [List.lookup_cons, h1, ih hmem.2]

theorem lookup_append_sentinel_ne (kv : String × String) (k : String)
    (base : List (String × String)) (hk : (k == kv.1) = false) :
    (base ++ [kv]).lookup k = base.lookup k := by
  obtain ⟨kk, kv2⟩ := kv
  simp only at hk
  induction base with
  | nil => simp [List.lookup_cons, hk]
  | cons p bs ih =>
    obtain ⟨pk, pv⟩ := p
    by_cases h1 : (k == pk) = true
    · simp [List.lookup_cons, h1]
    · simp only [Bool.not_eq_true] at h1
      simp [List.lookup_cons, h1, ih]

theorem lookup_append_sentinel_eq (kv : String × String) (base : List (String × String))
    (hnone : base.lookup kv.1 = none) :
    (base ++ [kv]).lookup kv.1 = some kv.2 := by
  obtain ⟨kk, kv2⟩ := kv
  simp only at hnone
  induction base with
  | nil => simp [List.lookup_cons]
  | cons p bs ih =>
    obtain ⟨pk, pv⟩ := p
    by_cases h1 : (kk == pk) = true
    · simp [List.lookup_cons, h1] at hnone
    · simp only [Bool.not_eq_true] at h1
      simp only [List.lookup_cons, h1] at hnone
      simp [List.lookup_cons, h1, ih hnone]

theorem lookup_updEntry (base : List (String × String)) (kv : String × String) (k : String) :
    (updEntry base kv).lookup k = if k = kv.1 then some kv.2 else base.lookup k := by
  unfold updEntry
  by_cases hmem : base.any (fun p => p.1 == kv.1) = true
  · rw [if_pos hmem]
    by_cases hk : k = kv.1
    · subst hk
      rw [if_pos rfl]
      exact lookup_map_updEntry_eq kv base hmem
    · rw [if_neg hk]
      exact lookup_map_updEntry_ne kv k base (by simpa using hk)
  · rw [if_neg hmem]
    by_cases hk : k = kv.1
    · subst hk
      rw [if_pos rfl]
      exact lookup_append_sentinel_eq kv base
        (lookup_none_of_not_any kv base (by simpa only [Bool.not_eq_true] using hmem))
    · rw [if_neg hk]
      exact lookup_append_sentinel_ne kv k base (by simpa using hk)

theorem lookup_dictUpdate_not_mem (upd : List (String × String)) (k : String)
    (hk : ∀ q ∈ upd, k ≠ q.1) :
    ∀ base, (dictUpdate base upd).lookup k = base.lookup k := by
  induction upd with
  | nil => intro base; rfl
  | cons q rest ih =>
    intro base
    have h1 : (dictUpdate base (q :: rest)) = dictUpdate (updEntry base q) rest := rfl
    rw [h1, ih (fun r hr => hk r (List.mem_cons_of_mem q hr)), lookup_updEntry,
      if_neg (hk q (List.mem_cons_self q rest))]

theorem lookup_dictUpdate (upd : List (String × String)) (k : String)
    (hnd : (upd.map Prod.fst).Nodup) :
    ∀ base, (dictUpdate base upd).lookup k =
      match upd.lookup k with
      | some v => some v
      | none => base.lookup k := by
  induction upd with
  | nil => intro base; rfl
  | cons q rest ih =>
    intro base
    obtain ⟨qk, qv⟩ := q
    simp only [List.map_cons, List.nodup_cons] at hnd
    have h1 : (dictUpdate base ((qk, qv) :: rest)) = dictUpdate (updEntry base (qk, qv)) rest :=
      rfl
    by_cases hk : k = qk
    · have hrest : ∀ r ∈ rest, k ≠ r.1 := by
        intro r hr he
        apply hnd.1
        have h2 : qk = r.1 := by rw [← hk, he]
        rw [h2]
        exact List.mem_map_of_mem Prod.fst hr
      rw [h1, lookup_dictUpdate_not_mem rest k hrest, lookup_updEntry, if_pos hk]
      have hq : (k == qk) = true := beq_iff_eq.mpr hk
      simp [List.lookup_cons, hq]
    · have hq : (k == qk) = false := by simpa using hk
      rw [h1, ih hnd.2]
      rcases hlk : rest.lookup k with _ | v
      · simp only [List.lookup_cons, hq, hlk]
        rw [lookup_updEntry]
        simp only [if_neg hk]
      · simp only [List.lookup_cons, hq, hlk]

/-- The merge's lookup behavior: machine-specific entries win, ambient
entries are the fallback. -/
theorem lookup_get_swarm_env_merge (ambient machineVars : List (String × String)) (k : String)
    (hamb : (ambient.map Prod.fst).Nodup) (hmv : (machineVars.map Prod.fst).Nodup) :
    (get_swarm_env_merge ambient machineVars).lookup k =
      match machineVars.lookup k with
      | some v => some v
      | none => ambient.lookup k := by
  unfold get_swarm_env_merge
  rw [lookup_dictUpdate machineVars k hmv]
  rcases machineVars.lookup k with _ | v
  · rw [lookup_dictUpdate ambient k hamb]
    rcases ambient.lookup k with _ | w
    · rfl
    · rfl
  · rfl

/-! ## Structural lemmas about a create run -/

/-- A fully successful run after discovery: the exact trace and result. -/
theorem after_discovery_ok (b : Backend) (s : ClusterSpec) (a : String) (mi : Ec2Instance)
    (hm : b.masterExit = 0) (hcu : b.composeUpExit = 0)
    (hinv : b.inv.lookup (master_name s) = some mi) (hrun : mi.stateName = "running")
    (hsc : b.scaleExit = 0) :
    create_cluster_after_discovery b s a =
      (Call.createMachine (master_name s) (masterArgs s a) ::
       Call.machineEnvQuery (master_name s) ::
       Call.composeUp s.docker_compose_file "master"
         (get_swarm_env_merge b.ambient b.machineVars) ::
       Call.describeInstances ::
       (((List.range s.num_workers).map fun i =>
          Call.createMachine (worker_name s i) (workerArgs s a i)) ++
        [Call.composeScale s.docker_compose_file ["master=1", "worker=10"]
          (get_swarm_env_merge b.ambient b.machineVars)]),
       Except.ok { masterDns := mi.publicDnsName,
                   workerResults := (List.range s.num_workers).map fun i =>
                     (worker_name s i, b.workerExit i) }) := by
  unfold create_cluster_after_discovery get_ip_from_name_run
  simp [hm, hcu, hinv, hrun, hsc]

/-- A run whose master `docker-machine create` exits non-zero: exactly one
create request was issued and the run aborted. -/
theorem after_discovery_master_fail (b : Backend) (s : ClusterSpec) (a : String)
    (hm : b.masterExit ≠ 0) :
    create_cluster_after_discovery b s a =
      ([Call.createMachine (master_name s) (masterArgs s a)],
       Except.error (RunErr.calledProcessErr "docker-machine create")) := by
  unfold create_cluster_after_discovery
  simp [hm]

/-- In every branch, the phase after discovery opens with the master's create
request and issues no discovery name-resolution call. -/
theorem after_discovery_shape (b : Backend) (s : ClusterSpec) (a : String) :
    (create_cluster_after_discovery b s a).1.head? =
      some (Call.createMachine (master_name s) (masterArgs s a)) ∧
    resolveCallsIn (create_cluster_after_discovery b s a).1 = 0 := by
  unfold create_cluster_after_discovery get_ip_from_name_run
  by_cases hm : b.masterExit = 0
  · by_cases hcu : b.composeUpExit = 0
    · rcases hinv : b.inv.lookup (master_name s) with _ | mi
      · simp [hm, hcu, hinv, resolveCallsIn]
      · by_cases hrun : mi.stateName = "running"
        · by_cases hsc : b.scaleExit = 0
          · simp [hm, hcu, hinv, hrun, hsc, resolveCallsIn, List.filter_append]
          · simp [hm, hcu, hinv, hrun, hsc, resolveCallsIn, List.filter_append]
        · simp [hm, hcu, hinv, hrun, resolveCallsIn, List.filter_append]
    · simp [hm, hcu, resolveCallsIn]
  · simp [hm, resolveCallsIn]

/-- With a discovery reference the literal check accepts, `create_cluster` is
the post-discovery phase verbatim. -/
theorem create_cluster_literal_disc (b : Backend) (s : ClusterSpec)
    (hc : looks_like_ip s.consul = true) :
    create_cluster b s = create_cluster_after_discovery b s s.consul := by
  unfold create_cluster
  simp [hc]

/-- With a discovery reference the literal check rejects and whose
name-resolution fails, `create_cluster` aborts after the resolution call. -/
theorem create_cluster_resolved_err (b : Backend) (s : ClusterSpec) (e : ResolveErr)
    (hc : looks_like_ip s.consul = false)
    (h : (get_ip_from_name_run b.inv s.consul true).2 = Except.error e) :
    create_cluster b s =
      ([Call.resolveName s.consul], Except.error (RunErr.resolveFailed e)) := by
  unfold create_cluster get_consul_ip
  simp [hc, h]

/-- With a discovery reference the literal check rejects and whose
name-resolution yields an address, `create_cluster` opens with the
resolution call and proceeds with the resolved address. -/
theorem create_cluster_resolved_ok (b : Backend) (s : ClusterSpec) (a : String)
    (hc : looks_like_ip s.consul = false)
    (h : (get_ip_from_name_run b.inv s.consul true).2 = Except.ok a) :
    create_cluster b s =
      (Call.resolveName s.consul :: (create_cluster_after_discovery b s a).1,
       (create_cluster_after_discovery b s a).2) := by
  unfold create_cluster get_consul_ip
  simp [hc, h]

/-! ## The claims -/

/-- Claim C1: for every requested worker count `N ≥ 0`, a `create` run that
reaches the worker phase issues one worker-create request per index
`0..N-1`, each named `{prefix}-worker-{index}` (with the spot-price and
worker-instance-type options of `workerArgs`), and the run's result reports
exactly `N` worker outcomes in request order by worker index — the outcome
of index `i` is whatever exit code worker `i`'s process was waited on with,
so the shape is independent of completion order and of individual
failures. -/
theorem create_cluster_worker_fanout (b : Backend) (s : ClusterSpec) (mi : Ec2Instance)
    (hc : looks_like_ip s.consul = true) (hm : b.masterExit = 0) (hcu : b.composeUpExit = 0)
    (hinv : b.inv.lookup (master_name s) = some mi) (hrun : mi.stateName = "running")
    (hsc : b.scaleExit = 0) :
    createRequests (create_cluster b s).1 =
      master_name s :: (List.range s.num_workers).map (worker_name s) ∧
    (create_cluster b s).2 =
      Except.ok { masterDns := mi.publicDnsName,
                  workerResults := (List.range s.num_workers).map fun i =>
                    (worker_name s i, b.workerExit i) } ∧
    (∀ r, (create_cluster b s).2 = Except.ok r →
       r.workerResults.length = s.num_workers) := by
  rw [create_cluster_literal_disc b s hc,
    after_discovery_ok b s s.consul mi hm hcu hinv hrun hsc]
  refine ⟨?_, rfl, ?_⟩
  · have h2 : ∀ l : List Nat,
        List.filterMap
          (fun c => match c with | Call.createMachine n _ => some n | _ => none)
          (l.map fun i => Call.createMachine (worker_name s i) (workerArgs s s.consul i)) =
          l.map (worker_name s) := by
      intro l
      induction l with
      | nil => rfl
      | cons x xs ih => simp [ih]
    simp [createRequests, List.filterMap_append, h2]
  · intro r hr
    cases hr
    simp

/-- Closed check of C1 at a concrete three-worker run. -/
theorem create_cluster_worker_fanout_check :
    (create_cluster bOk sThree).2 =
      Except.ok { masterDns := "ec2-54-0-0-1.compute.amazonaws.com",
                  workerResults :=
                    [("spark-worker-0", 0), ("spark-worker-1", 0), ("spark-worker-2", 0)] } :=
  (create_cluster_worker_fanout bOk sThree miRunning (by decide) rfl rfl (by decide)
    rfl rfl).2.1

/-- Claim C7: when some strict, non-empty subset of the worker-create
processes fails (exactly `K` of `N` with `1 ≤ K ≤ N-1`), no failure removes a
sibling's request from the trace or aborts the run: every index's create
request is issued, the run completes, all `N` outcomes are reported, and the
scale request is still issued afterwards. -/
theorem create_cluster_partial_worker_failure (b : Backend) (s : ClusterSpec)
    (mi : Ec2Instance)
    (hc : looks_like_ip s.consul = true) (hm : b.masterExit = 0) (hcu : b.composeUpExit = 0)
    (hinv : b.inv.lookup (master_name s) = some mi) (hrun : mi.stateName = "running")
    (hsc : b.scaleExit = 0)
    (_hKlo : 1 ≤ ((List.range s.num_workers).filter fun i => b.workerExit i != 0).length)
    (_hKhi : ((List.range s.num_workers).filter fun i => b.workerExit i != 0).length + 1 ≤
      s.num_workers) :
    (∀ i, i < s.num_workers →
       Call.createMachine (worker_name s i) (workerArgs s s.consul i) ∈
         (create_cluster b s).1) ∧
    Call.composeScale s.docker_compose_file ["master=1", "worker=10"]
      (get_swarm_env_merge b.ambient b.machineVars) ∈ (create_cluster b s).1 ∧
    (create_cluster b s).2 =
      Except.ok { masterDns := mi.publicDnsName,
                  workerResults := (List.range s.num_workers).map fun i =>
                    (worker_name s i, b.workerExit i) } ∧
    ((List.range s.num_workers).map fun i => (worker_name s i, b.workerExit i)).length =
      s.num_workers := by
  rw [create_cluster_literal_disc b s hc,
    after_discovery_ok b s s.consul mi hm hcu hinv hrun hsc]
  refine ⟨?_, ?_, rfl, by simp⟩
  · intro i hi
    simp only [List.mem_cons, List.mem_append, List.mem_map, List.mem_range]
    exact Or.inr (Or.inr (Or.inr (Or.inr (Or.inl ⟨i, hi, rfl⟩))))
  · simp

/-- Closed check of C7: with worker 1 of 3 failing, the scale request is
still issued. -/
theorem create_cluster_partial_worker_failure_check :
    Call.composeScale "dc.yml" ["master=1", "worker=10"]
      (get_swarm_env_merge bOneWorkerFails.ambient bOneWorkerFails.machineVars) ∈
      (create_cluster bOneWorkerFails sThree).1 :=
  (create_cluster_partial_worker_failure bOneWorkerFails sThree miRunning (by decide) rfl rfl
    (by decide) rfl rfl (by decide) (by decide)).2.1

/-- Claim C6: if the master's `docker-machine create` fails, the run aborts
(`check_call` raises) and the only create request ever issued is the
master's — zero worker-create requests are issued, whichever way the
discovery reference was settled. -/
theorem create_cluster_master_fail_no_workers (b : Backend) (s : ClusterSpec)
    (hm : b.masterExit ≠ 0) :
    runAborted (create_cluster b s).2 = true ∧
    ∀ n a2, Call.createMachine n a2 ∈ (create_cluster b s).1 → n = master_name s := by
  by_cases hc : looks_like_ip s.consul
  · rw [create_cluster_literal_disc b s hc, after_discovery_master_fail b s s.consul hm]
    refine ⟨rfl, ?_⟩
    intro n a2 hmem
    simp only [List.mem_singleton] at hmem
    cases hmem
    rfl
  · rcases h : (get_ip_from_name_run b.inv s.consul true).2 with e | a
    · rw [create_cluster_resolved_err b s e (by simpa using hc) h]
      refine ⟨rfl, ?_⟩
      intro n a2 hmem
      simp at hmem
    · rw [create_cluster_resolved_ok b s a (by simpa using hc) h,
        after_discovery_master_fail b s a hm]
      refine ⟨rfl, ?_⟩
      intro n a2 hmem
      simp only [List.mem_cons] at hmem
      rcases hmem with hmem | hmem | hmem
      · injection hmem
      · injection hmem
      · simp at hmem

/-- Closed check of C6 at a concrete failing master. -/
theorem create_cluster_master_fail_no_workers_check :
    runAborted (create_cluster bMasterFails sThree).2 = true :=
  (create_cluster_master_fail_no_workers bMasterFails sThree (by decide)).1

/-- Claim C5: a discovery reference the IPv4-literal pattern accepts is used
verbatim — the run makes no name-resolution call and the master's create
request carries the literal inside its `--swarm-discovery` option; a
reference the pattern rejects is resolved by name first — the trace opens
with the resolution call, and when resolution yields an address the very
next call is the master create built from that address.  (`get_consul_ip`
itself is modelled from the spec, the source never defining it.) -/
theorem create_cluster_discovery_gating (b : Backend) (s : ClusterSpec) :
    (looks_like_ip s.consul = true →
       resolveCallsIn (create_cluster b s).1 = 0 ∧
       (create_cluster b s).1.head? =
         some (Call.createMachine (master_name s) (masterArgs s s.consul)) ∧
       ("--swarm-discovery=consul://" ++ s.consul ++ ":8500") ∈ masterArgs s s.consul) ∧
    (looks_like_ip s.consul = false →
       (create_cluster b s).1.head? = some (Call.resolveName s.consul) ∧
       ∀ a, (get_ip_from_name_run b.inv s.consul true).2 = Except.ok a →
         (create_cluster b s).1.tail.head? =
           some (Call.createMachine (master_name s) (masterArgs s a))) := by
  constructor
  · intro hc
    rw [create_cluster_literal_disc b s hc]
    have h := after_discovery_shape b s s.consul
    exact ⟨h.2, h.1, by simp [masterArgs, swarm_options, driver_options]⟩
  · intro hc
    constructor
    · rcases h : (get_ip_from_name_run b.inv s.consul true).2 with e | a
      · rw [create_cluster_resolved_err b s e hc h]
        rfl
      · rw [create_cluster_resolved_ok b s a hc h]
        rfl
    · intro a h
      rw [create_cluster_resolved_ok b s a hc h]
      have h2 := after_discovery_shape b s a
      simpa using h2.1

/-- Claim C10: the literal-address check validates shape only.  Any four
dot-separated groups of one to three digits, optionally followed by a colon
and one to five digits, pass — no range validation is performed — and at the
concrete non-address `"999.999.999.999:99999"` (octets above 255, port above
65535) the check matches, so `create` issues no name-resolution call and
splices that string verbatim into the master's discovery option. -/
theorem looks_like_ip_shape_not_range (g1 g2 g3 g4 : List Char) (p : Option (List Char))
    (h1 : IsDigitGrp g1) (h2 : IsDigitGrp g2) (h3 : IsDigitGrp g3) (h4 : IsDigitGrp g4)
    (hp : IsPortGrp p) :
    looks_like_ip (String.mk (renderIp g1 g2 g3 g4 p)) = true ∧
    validIPv4 "999.999.999.999:99999" = false ∧
    looks_like_ip "999.999.999.999:99999" = true ∧
    resolveCallsIn (create_cluster bOk sBogusIp).1 = 0 ∧
    (create_cluster bOk sBogusIp).1.head? =
      some (Call.createMachine "spark-master"
        (masterArgs sBogusIp "999.999.999.999:99999")) ∧
    "--swarm-discovery=consul://999.999.999.999:99999:8500" ∈
      masterArgs sBogusIp "999.999.999.999:99999" := by
  refine ⟨looks_like_ip_render g1 g2 g3 g4 p h1 h2 h3 h4 hp, by decide, by decide,
    ?_, ?_, by decide⟩
  · decide
  · decide

/-- Closed check of C10: a concrete shaped literal is accepted. -/
theorem looks_like_ip_shape_not_range_check :
    looks_like_ip (String.mk (renderIp ['1', '2', '3'] ['4', '5'] ['6'] ['7', '8']
      (some ['9', '0', '4', '2']))) = true :=
  (looks_like_ip_shape_not_range ['1', '2', '3'] ['4', '5'] ['6'] ['7', '8']
    (some ['9', '0', '4', '2']) (by decide) (by decide) (by decide) (by decide)
    (by decide)).1

/-- Claim C2 is false of the code (a code bug): after the worker outcomes are
collected, the scale request does not carry the final observed counts — line
126 hardcodes `master=1 worker=10`.  At a concrete run requesting three
workers, all three observed running, the one scale request still says
`worker=10`, not `worker=3`. -/
theorem create_cluster_scale_hardcoded :
    scaleArgsIn (create_cluster bOk sThree).1 = [["master=1", "worker=10"]] ∧
    (create_cluster bOk sThree).2 =
      Except.ok { masterDns := "ec2-54-0-0-1.compute.amazonaws.com",
                  workerResults :=
                    [("spark-worker-0", 0), ("spark-worker-1", 0), ("spark-worker-2", 0)] } ∧
    observedRunning
      { masterDns := "ec2-54-0-0-1.compute.amazonaws.com",
        workerResults :=
          [("spark-worker-0", 0), ("spark-worker-1", 0), ("spark-worker-2", 0)] } = 3 ∧
    ["master=1", "worker=10"] ≠ ["master=1", "worker=" ++ toString 3] := by
  refine ⟨by decide, by decide, by decide, by decide⟩

/-- Claim C3's counterexample: on a name whose inventory state is
`"pending"`, the code issues exactly one inventory query and raises the
generic `EnvironmentError` immediately, whereas the claimed resolver with
`maxAttempts = 3` would query three times before failing with `NotRunning`:
the code does not retry at all. -/
theorem get_ip_from_name_no_retry :
    (get_ip_from_name_run invMixed "spark-worker-0" true).1.length = 1 ∧
    (get_ip_from_name_run invMixed "spark-worker-0" true).2 =
      Except.error (ResolveErr.notRunningEnvironmentErr "spark-worker-0") ∧
    (resolveAddress invMixed "spark-worker-0" true 3).1.length = 3 ∧
    (resolveAddress invMixed "spark-worker-0" true 3).2 =
      Except.error SpecResolutionError.notRunning ∧
    (get_ip_from_name_run invMixed "spark-worker-0" true).1.length ≠
      (resolveAddress invMixed "spark-worker-0" true 3).1.length := by
  refine ⟨by decide, by decide, by decide, by decide, by decide⟩

/-- Claim C3 as the code has it: address resolution issues exactly one
inventory query in every case.  A running name yields the requested field
(private IP when `private`, public DNS otherwise) without retrying; a
non-running (e.g. pending) name fails immediately with the generic
`EnvironmentError` — no retry, no backoff, no attempt bound exists; an
absent name fails immediately on the key lookup.  No `NotFound`/`NotRunning`
distinction exists. -/
theorem get_ip_from_name_single_query (inv : List (String × Ec2Instance)) (n : String)
    (priv : Bool) :
    (get_ip_from_name_run inv n priv).1 = [Call.describeInstances] ∧
    (inv.lookup n = none →
       (get_ip_from_name_run inv n priv).2 = Except.error (ResolveErr.keyLookupFailed n)) ∧
    (∀ mi, inv.lookup n = some mi → mi.stateName = "running" →
       (get_ip_from_name_run inv n priv).2 =
         Except.ok (if priv then mi.privateIpAddress else mi.publicDnsName)) ∧
    (∀ mi, inv.lookup n = some mi → mi.stateName ≠ "running" →
       (get_ip_from_name_run inv n priv).2 =
         Except.error (ResolveErr.notRunningEnvironmentErr n)) := by
  refine ⟨rfl, ?_, ?_, ?_⟩
  · intro h
    simp [get_ip_from_name_run, h]
  · intro mi h hrun
    cases priv <;> simp [get_ip_from_name_run, h, hrun]
  · intro mi h hrun
    simp [get_ip_from_name_run, h, hrun]

/-- Claim C4 against the code (a code bug): as written, `get_swarm_env`
raises `NameError: env_vars` after its machine-environment query and returns
nothing, for every master name; the mapping the claim (and the function's own
docstring) describe is the one the body's two `dict.update` calls prescribe
once `env_vars` is initialised empty and returned — and that mapping does
merge machine-specific entries over ambient defaults: a key the machine
config defines resolves to the machine value, any other key to the ambient
value. -/
theorem get_swarm_env_bug_and_merge :
    (∀ n, get_swarm_env_literal n =
       ([Call.machineEnvQuery n], Except.error (PyErr.nameErrorRaised "env_vars"))) ∧
    (∀ ambient machineVars : List (String × String), ∀ k : String,
       (ambient.map Prod.fst).Nodup → (machineVars.map Prod.fst).Nodup →
       (get_swarm_env_merge ambient machineVars).lookup k =
         match machineVars.lookup k with
         | some v => some v
         | none => ambient.lookup k) := by
  refine ⟨fun n => rfl, ?_⟩
  intro ambient machineVars k hamb hmv
  exact lookup_get_swarm_env_merge ambient machineVars k hamb hmv

/-- Claim C8's counterexample: under a backend whose removal command — like
`docker-machine rm` — exits non-zero for a name it does not know, `destroy`
against the nonexistent name `"no-such-box"` does not complete without
error: `check_call` raises.  The code has no handling that turns a "no such
machine" report into success. -/
theorem destroy_missing_name_errors :
    rmOnlyConsulDisco "no-such-box" ≠ 0 ∧
    destroy_consul_box rmOnlyConsulDisco "no-such-box" =
      ([Call.machineRm "no-such-box"],
       Except.error (RunErr.calledProcessErr "docker-machine rm")) := by
  refine ⟨by decide, by decide⟩

/-- Claim C8 as the code has it: `destroy` issues exactly one removal request
for the given name and completes without error exactly when the external
removal command exits zero — idempotence on missing names holds only if the
backend itself reports them as success. -/
theorem destroy_consul_box_spec (rmExit : String → Nat) (n : String) :
    (destroy_consul_box rmExit n).1 = [Call.machineRm n] ∧
    ((destroy_consul_box rmExit n).2 = Except.ok () ↔ rmExit n = 0) := by
  by_cases h : rmExit n = 0 <;> simp [destroy_consul_box, h]

/-- Claim C9 against the code (a code bug): `test` derives
`{prefix}-master`, computes the swarm environment and makes exactly one
submission call whose captured output is echoed verbatim — but the
submission is issued without the derived environment: the `docker run` call
passes no `env=` keyword (the computed `swarm_env` of line 167 is unused),
so no call carrying the derived mapping appears in the trace. -/
theorem test_spark_cluster_env_unused :
    test_spark_cluster bOk "Pi is roughly 3.141593" "spark" =
      ([Call.machineEnvQuery "spark-master", Call.dockerRun spark_submit_args none],
       "Pi is roughly 3.141593") ∧
    Call.dockerRun spark_submit_args
        (some (get_swarm_env_merge bOk.ambient bOk.machineVars)) ∉
      (test_spark_cluster bOk "Pi is roughly 3.141593" "spark").1 := by
  refine ⟨by decide, by decide⟩

end SimpleSpark
